import Mathlib

/-!
Shallow embedding of the client-side architecture state store
(`src/store/networkStore.ts`) of the AI-Visualizer repository, together with
the static template registry it consumes (`src/data/curriculum.ts`).

Modelling conventions:
* JavaScript numbers are modelled as `ℚ` (all numeric literals in the store
  and the templates are exact decimals; no claim depends on float rounding).
* A layer's `params` is a JS object with string keys; it is modelled as an
  association list `Params` in key-insertion order, looked up at the first
  occurrence, with object-spread merge `\x7b ...a, ...b \x7d` modelled by
  `mergeParams`.
* Nondeterminism (`Date.now()`/`Math.random()` in `generateLayerId`, and
  `Math.random()` for connection weights) is modelled by threading explicit
  supplies: an id supply `ℕ → String` and a weight supply `ℕ → ℚ`.
* `layer.params.units as number` is a TypeScript type assertion with no
  runtime conversion; arithmetic on a missing key yields NaN in JS.  Inside
  `getTotalParameters` JS numbers are therefore modelled as `Option ℚ` with
  `none` playing NaN/undefined, and NaN-propagating arithmetic.
-/

/-- A JS value stored in a layer's `params` record: the TS type is
`number | string | boolean | number[]`. -/
inductive Value : Type where
  | num (q : ℚ)
  | str (s : String)
  | bool (b : Bool)
  | arr (l : List ℚ)
deriving DecidableEq, Repr

/-- A JS object used as a parameter record, in key-insertion order. -/
abbrev Params : Type := List (String × Value)

/-- Property read `obj[k]`: first binding of the key, `none` = `undefined`. -/
def lookupP : Params → String → Option Value
  | [], _ => none
  | (k, v) :: rest, key => if k = key then some v else lookupP rest key

/-- Whether the object has the key. -/
def hasKeyP (p : Params) (key : String) : Bool :=
  p.any (fun kv => kv.1 == key)

/-- Object spread `\x7b ...a, ...b \x7d`: keys of `a` in their order with
values overridden by `b` where present, then keys of `b` not in `a`. -/
def mergeParams (a b : Params) : Params :=
  a.map (fun kv => (kv.1, (lookupP b kv.1).getD kv.2)) ++
    b.filter (fun kv => !hasKeyP a kv.1)

/-- The closed `LayerType` union from `src/data/curriculum.ts`. -/
inductive LayerType : Type where
  | input
  | dense
  | conv2d
  | maxpool2d
  | avgpool2d
  | flatten
  | dropout
  | batchnorm
  | lstm
  | gru
  | embedding
  | attention
  | output
deriving DecidableEq, Repr, Inhabited

/-- A 3D coordinate record `\x7bx, y, z\x7d`. -/
structure Vec3 : Type where
  x : ℚ
  y : ℚ
  z : ℚ
deriving DecidableEq, Repr, Inhabited

/-- `NetworkLayer` from `networkStore.ts`; the optional TS fields `neurons?`
and `shape?` become `Option`s (`shape` is declared but never assigned by the
store, so it stays `none` throughout). -/
structure NetworkLayer : Type where
  id : String
  type : LayerType
  name : String
  params : Params
  position : Vec3
  neurons : Option ℚ := none
  shape : Option (List ℚ) := none
deriving DecidableEq, Repr, Inhabited

/-- `NetworkConnection` from `networkStore.ts`. -/
structure NetworkConnection : Type where
  id : String
  fromLayerId : String
  toLayerId : String
  weight : Option ℚ := none
  isActive : Option Bool := none
deriving DecidableEq, Repr

/-- `TrainingState` from `networkStore.ts`. -/
structure TrainingState : Type where
  isTraining : Bool
  currentEpoch : ℚ
  totalEpochs : ℚ
  loss : ℚ
  accuracy : ℚ
  lossHistory : List ℚ
  accuracyHistory : List ℚ
deriving DecidableEq, Repr

/-- `NetworkConfig` from `networkStore.ts`; the `optimizer` and
`lossFunction` string unions are modelled as strings. -/
structure NetworkConfig : Type where
  learningRate : ℚ
  batchSize : ℚ
  epochs : ℚ
  optimizer : String
  lossFunction : String
deriving DecidableEq, Repr

/-- `VisualizationState` from `networkStore.ts`; nullable layer-id references
become `Option String`. -/
structure VisualizationState : Type where
  showDataFlow : Bool
  showWeights : Bool
  showGradients : Bool
  animationSpeed : ℚ
  selectedLayerId : Option String
  hoveredLayerId : Option String
  viewMode : String
  cameraPosition : Vec3
deriving DecidableEq, Repr

/-- `UIState` from `networkStore.ts`.  `currentTourStep` is an `ℤ` because
JS numbers are signed; nothing in the type forbids a negative value, which is
exactly what the tour-step claims are about. -/
structure UIState : Type where
  leftPanelOpen : Bool
  rightPanelOpen : Bool
  rightPanelTab : String
  isTourActive : Bool
  currentTourStep : ℤ
  theme : String
deriving DecidableEq, Repr

/-- The data part of the zustand store (`NetworkStore` minus the actions,
which become functions on this state type). -/
structure NetworkStore : Type where
  currentArchitecture : String
  layers : List NetworkLayer
  connections : List NetworkConnection
  training : TrainingState
  config : NetworkConfig
  visualization : VisualizationState
  ui : UIState
deriving DecidableEq, Repr

/-- `LayerConfig` from `curriculum.ts`: one `\x7btype, params\x7d` entry of a
template. -/
structure LayerConfig : Type where
  type : LayerType
  params : Params
deriving DecidableEq, Repr, Inhabited

/-- `ArchitectureTemplate` from `curriculum.ts` (the `difficulty` union is a
string). -/
structure ArchitectureTemplate : Type where
  id : String
  name : String
  description : String
  layers : List LayerConfig
  useCase : String
  difficulty : String
deriving DecidableEq, Repr, Inhabited

/-- The `architectureTemplates` registry of `curriculum.ts`, translated
literally (descriptions and use-cases shortened have NOT been — all fields
are verbatim). -/
def architectureTemplates : List ArchitectureTemplate :=
  [{ id := "perceptron",
     name := "Simple Perceptron",
     description := "The simplest neural network - a single layer for linearly separable problems",
     difficulty := "beginner",
     useCase := "Binary classification of linearly separable data (AND, OR gates)",
     layers := [⟨.input, [("shape", .arr [2])]⟩,
                ⟨.dense, [("units", .num 1), ("activation", .str "sigmoid")]⟩] },
   { id := "mlp",
     name := "Multi-Layer Perceptron (MLP)",
     description := "Classic feedforward network with hidden layers for non-linear problems",
     difficulty := "beginner",
     useCase := "Classification and regression tasks, XOR problem, tabular data",
     layers := [⟨.input, [("shape", .arr [10])]⟩,
                ⟨.dense, [("units", .num 64), ("activation", .str "relu")]⟩,
                ⟨.dense, [("units", .num 32), ("activation", .str "relu")]⟩,
                ⟨.dense, [("units", .num 1), ("activation", .str "sigmoid")]⟩] },
   { id := "cnn",
     name := "Convolutional Neural Network (CNN)",
     description := "Specialized architecture for image processing with convolutional layers",
     difficulty := "intermediate",
     useCase := "Image classification, object detection, visual pattern recognition",
     layers := [⟨.input, [("shape", .arr [28, 28, 1])]⟩,
                ⟨.conv2d, [("filters", .num 32), ("kernel_size", .num 3), ("activation", .str "relu")]⟩,
                ⟨.maxpool2d, [("pool_size", .num 2)]⟩,
                ⟨.conv2d, [("filters", .num 64), ("kernel_size", .num 3), ("activation", .str "relu")]⟩,
                ⟨.maxpool2d, [("pool_size", .num 2)]⟩,
                ⟨.flatten, []⟩,
                ⟨.dense, [("units", .num 128), ("activation", .str "relu")]⟩,
                ⟨.dropout, [("rate", .num (1/2))]⟩,
                ⟨.dense, [("units", .num 10), ("activation", .str "softmax")]⟩] },
   { id := "rnn",
     name := "Recurrent Neural Network (RNN/LSTM)",
     description := "Sequential model for processing time series and text data",
     difficulty := "intermediate",
     useCase := "Text classification, sentiment analysis, time series prediction",
     layers := [⟨.input, [("shape", .arr [100])]⟩,
                ⟨.embedding, [("input_dim", .num 10000), ("output_dim", .num 128)]⟩,
                ⟨.lstm, [("units", .num 64), ("return_sequences", .bool true)]⟩,
                ⟨.lstm, [("units", .num 32), ("return_sequences", .bool false)]⟩,
                ⟨.dense, [("units", .num 1), ("activation", .str "sigmoid")]⟩] },
   { id := "autoencoder",
     name := "Autoencoder",
     description := "Learns compressed representations through encoding and decoding",
     difficulty := "intermediate",
     useCase := "Dimensionality reduction, denoising, anomaly detection",
     layers := [⟨.input, [("shape", .arr [784])]⟩,
                ⟨.dense, [("units", .num 256), ("activation", .str "relu")]⟩,
                ⟨.dense, [("units", .num 64), ("activation", .str "relu")]⟩,
                ⟨.dense, [("units", .num 32), ("activation", .str "relu")]⟩,
                ⟨.dense, [("units", .num 64), ("activation", .str "relu")]⟩,
                ⟨.dense, [("units", .num 256), ("activation", .str "relu")]⟩,
                ⟨.dense, [("units", .num 784), ("activation", .str "sigmoid")]⟩] },
   { id := "transformer",
     name := "Transformer",
     description := "Attention-based architecture for NLP and sequence-to-sequence tasks",
     difficulty := "advanced",
     useCase := "Machine translation, text generation, BERT, GPT models",
     layers := [⟨.input, [("shape", .arr [512])]⟩,
                ⟨.embedding, [("input_dim", .num 30000), ("output_dim", .num 256)]⟩,
                ⟨.attention, [("heads", .num 8), ("key_dim", .num 64)]⟩,
                ⟨.dense, [("units", .num 512), ("activation", .str "relu")]⟩,
                ⟨.attention, [("heads", .num 8), ("key_dim", .num 64)]⟩,
                ⟨.dense, [("units", .num 512), ("activation", .str "relu")]⟩,
                ⟨.dense, [("units", .num 30000), ("activation", .str "softmax")]⟩] },
   { id := "gan",
     name := "Generative Adversarial Network (GAN)",
     description := "Two competing networks for generating realistic synthetic data",
     difficulty := "advanced",
     useCase := "Image generation, style transfer, data augmentation",
     layers := [⟨.input, [("shape", .arr [100])]⟩,
                ⟨.dense, [("units", .num 256), ("activation", .str "relu")]⟩,
                ⟨.batchnorm, [("momentum", .num (4/5))]⟩,
                ⟨.dense, [("units", .num 512), ("activation", .str "relu")]⟩,
                ⟨.batchnorm, [("momentum", .num (4/5))]⟩,
                ⟨.dense, [("units", .num 1024), ("activation", .str "relu")]⟩,
                ⟨.dense, [("units", .num 784), ("activation", .str "tanh")]⟩] }]

/-- `getDefaultParams` from `networkStore.ts`, translated case by case. -/
def getDefaultParams : LayerType → Params
  | .dense => [("units", .num 64), ("activation", .str "relu")]
  | .conv2d => [("filters", .num 32), ("kernel_size", .num 3), ("strides", .num 1),
                ("padding", .str "same"), ("activation", .str "relu")]
  | .maxpool2d => [("pool_size", .num 2), ("strides", .num 2)]
  | .avgpool2d => [("pool_size", .num 2), ("strides", .num 2)]
  | .flatten => []
  | .dropout => [("rate", .num (1/2))]
  | .batchnorm => [("momentum", .num (99/100))]
  | .lstm => [("units", .num 128), ("return_sequences", .bool false)]
  | .gru => [("units", .num 128), ("return_sequences", .bool false)]
  | .embedding => [("input_dim", .num 10000), ("output_dim", .num 128)]
  | .attention => [("heads", .num 8), ("key_dim", .num 64)]
  | .input => [("shape", .arr [28, 28, 1])]
  | .output => [("units", .num 10), ("activation", .str "softmax")]

/-- `getLayerName` from `networkStore.ts`. -/
def getLayerName : LayerType → String
  | .input => "Input"
  | .dense => "Dense"
  | .conv2d => "Conv2D"
  | .maxpool2d => "MaxPool2D"
  | .avgpool2d => "AvgPool2D"
  | .flatten => "Flatten"
  | .dropout => "Dropout"
  | .batchnorm => "BatchNorm"
  | .lstm => "LSTM"
  | .gru => "GRU"
  | .embedding => "Embedding"
  | .attention => "Attention"
  | .output => "Output"

/-- `calculateLayerPosition` from `networkStore.ts`: ordinary JS real
arithmetic, so `total - 1` is computed in `ℚ` (it is `-1` when `total = 0`,
not truncated). -/
def calculateLayerPosition (index total : ℕ) : Vec3 :=
  { x := -(((total : ℚ) - 1) * 3) / 2 + (index : ℚ) * 3,
    y := 0,
    z := 0 }

/-- `generateConnections` from `networkStore.ts`; the `Math.random()*2-1`
weights are supplied by `wt`, consumed in loop order. -/
def generateConnections : List NetworkLayer → (ℕ → ℚ) → List NetworkConnection
  | [], _ => []
  | [_], _ => []
  | a :: b :: rest, wt =>
      { id := "conn_" ++ a.id ++ "_" ++ b.id,
        fromLayerId := a.id,
        toLayerId := b.id,
        weight := some (wt 0),
        isActive := some false } :: generateConnections (b :: rest) (fun n => wt (n + 1))

/-- The TS cast `v as number` feeding JS arithmetic: a stored number is
itself, a missing value (`undefined`) is NaN-producing, modelled `none`.
(Every value stored under a numeric key by this store is a `Value.num`.) -/
def asNumV : Option Value → Option ℚ
  | some (.num q) => some q
  | _ => none

/-- `v || dflt` on the result of `v as number`, as used for the `neurons`
field: a nonzero number is truthy and taken, a zero or missing value falls
back to the default. -/
def truthyNumOrElse : Option Value → Option ℚ → Option ℚ
  | some (.num u), old => if u = 0 then old else some u
  | _, old => old

/-- The body of the `.map` in `createLayersFromTemplate`: one fresh layer
from one template entry at index `i` of `total`. -/
def layerOfConfig (ids : ℕ → String) (total i : ℕ) (c : LayerConfig) : NetworkLayer :=
  { id := ids i,
    type := c.type,
    name := getLayerName c.type,
    params := mergeParams (getDefaultParams c.type) c.params,
    position := calculateLayerPosition i total,
    neurons := if c.type = .dense then asNumV (lookupP c.params "units") else none,
    shape := none }

/-- Index-threading core of `createLayersFromTemplate` (the `.map` with
index over the template's layer configs). -/
def createLayersAux (ids : ℕ → String) (total : ℕ) : ℕ → List LayerConfig → List NetworkLayer
  | _, [] => []
  | i, c :: rest => layerOfConfig ids total i c :: createLayersAux ids total (i + 1) rest

/-- `createLayersFromTemplate` from `networkStore.ts`, with the fresh ids of
`generateLayerId` supplied by `ids`. -/
def createLayersFromTemplate (t : ArchitectureTemplate) (ids : ℕ → String) : List NetworkLayer :=
  createLayersAux ids t.layers.length 0 t.layers

/-- Index-threading core of the `newLayers.forEach((layer, index) =>
layer.position = calculateLayerPosition(index, newLayers.length))` loop that
every structural mutator runs. -/
def recomputeAux (total : ℕ) : ℕ → List NetworkLayer → List NetworkLayer
  | _, [] => []
  | i, l :: rest =>
      { l with position := calculateLayerPosition i total } :: recomputeAux total (i + 1) rest

/-- The full position-recompute pass over a layer list. -/
def recomputePositions (ls : List NetworkLayer) : List NetworkLayer :=
  recomputeAux ls.length 0 ls

/-- The two-splice list move of `reorderLayers`:
`splice(fromIndex, 1)` then `splice(toIndex, 0, removed)`.  JS `splice`
clamps an insertion index past the end to an append, hence the `min`.  For
`fromIndex ≥ length` the source dereferences `undefined` in the subsequent
`forEach` and throws, so the embedding is only meaningful for in-range
`fromIndex` (all theorems carry that bound); it returns the list unchanged
outside it to stay total. -/
def listMove (ls : List α) (i j : ℕ) : List α :=
  if h : i < ls.length then
    (ls.eraseIdx i).insertIdx (min j (ls.eraseIdx i).length) (ls.get ⟨i, h⟩)
  else ls

/-- `setArchitecture` from `networkStore.ts`: registry lookup by id; a miss
is a silent no-op. -/
def NetworkStore.setArchitecture (s : NetworkStore) (ty : String)
    (ids : ℕ → String) (wt : ℕ → ℚ) : NetworkStore :=
  match architectureTemplates.find? (fun t => t.id == ty) with
  | some t =>
      let layers := createLayersFromTemplate t ids
      { s with currentArchitecture := ty,
               layers := layers,
               connections := generateConnections layers wt }
  | none => s

/-- `loadTemplate` from `networkStore.ts` (the `template.id as
ArchitectureType` cast is the identity on the underlying string). -/
def NetworkStore.loadTemplate (s : NetworkStore) (t : ArchitectureTemplate)
    (ids : ℕ → String) (wt : ℕ → ℚ) : NetworkStore :=
  let layers := createLayersFromTemplate t ids
  { s with currentArchitecture := t.id,
           layers := layers,
           connections := generateConnections layers wt }

/-- `addLayer` from `networkStore.ts`; the absent optional `params` argument
is the empty record, the fresh `generateLayerId()` result is `newId`.  The
new layer's initially computed position is immediately overwritten by the
`forEach` recompute pass, which the embedding runs via `recomputePositions`. -/
def NetworkStore.addLayer (s : NetworkStore) (ty : LayerType) (params : Params)
    (newId : String) (wt : ℕ → ℚ) : NetworkStore :=
  let newLayer : NetworkLayer :=
    { id := newId,
      type := ty,
      name := getLayerName ty,
      params := mergeParams (getDefaultParams ty) params,
      position := calculateLayerPosition s.layers.length (s.layers.length + 1),
      neurons := if ty = .dense then truthyNumOrElse (lookupP params "units") (some 64) else none,
      shape := none }
  let newLayers := recomputePositions (s.layers ++ [newLayer])
  { s with layers := newLayers,
           connections := generateConnections newLayers wt,
           currentArchitecture := "custom" }

/-- `removeLayer` from `networkStore.ts`. -/
def NetworkStore.removeLayer (s : NetworkStore) (layerId : String) (wt : ℕ → ℚ) : NetworkStore :=
  let newLayers := recomputePositions (s.layers.filter (fun l => l.id != layerId))
  { s with layers := newLayers,
           connections := generateConnections newLayers wt,
           currentArchitecture := "custom" }

/-- `updateLayerParams` from `networkStore.ts`.  The `neurons` refresh is JS
`params.units as number || layer.neurons`: taken only when `units` is a
truthy (nonzero) number, else the old value survives.  (No call site passes
a non-number under `units`.) -/
def NetworkStore.updateLayerParams (s : NetworkStore) (layerId : String) (params : Params) :
    NetworkStore :=
  { s with layers := s.layers.map (fun layer =>
      if layer.id == layerId then
        { layer with params := mergeParams layer.params params,
                     neurons := truthyNumOrElse (lookupP params "units") layer.neurons }
      else layer) }

/-- `reorderLayers` from `networkStore.ts`: splice-out, splice-in, then the
shared position recompute and connection regeneration. -/
def NetworkStore.reorderLayers (s : NetworkStore) (fromIndex toIndex : ℕ) (wt : ℕ → ℚ) :
    NetworkStore :=
  let newLayers := recomputePositions (listMove s.layers fromIndex toIndex)
  { s with layers := newLayers,
           connections := generateConnections newLayers wt }

/-- `clearNetwork` from `networkStore.ts`. -/
def NetworkStore.clearNetwork (s : NetworkStore) : NetworkStore :=
  { s with layers := [], connections := [], currentArchitecture := "custom" }

/-- `startTraining` from `networkStore.ts`. -/
def NetworkStore.startTraining (s : NetworkStore) : NetworkStore :=
  { s with training := { s.training with isTraining := true } }

/-- `stopTraining` from `networkStore.ts`. -/
def NetworkStore.stopTraining (s : NetworkStore) : NetworkStore :=
  { s with training := { s.training with isTraining := false } }

/-- `resetTraining` from `networkStore.ts`. -/
def NetworkStore.resetTraining (s : NetworkStore) : NetworkStore :=
  { s with training :=
      { isTraining := false,
        currentEpoch := 0,
        totalEpochs := s.config.epochs,
        loss := 0,
        accuracy := 0,
        lossHistory := [],
        accuracyHistory := [] } }

/-- `updateTrainingProgress` from `networkStore.ts`. -/
def NetworkStore.updateTrainingProgress (s : NetworkStore) (epoch loss accuracy : ℚ) :
    NetworkStore :=
  { s with training :=
      { s.training with
        currentEpoch := epoch,
        loss := loss,
        accuracy := accuracy,
        lossHistory := s.training.lossHistory ++ [loss],
        accuracyHistory := s.training.accuracyHistory ++ [accuracy] } }

/-- `setSelectedLayer` from `networkStore.ts`. -/
def NetworkStore.setSelectedLayer (s : NetworkStore) (layerId : Option String) : NetworkStore :=
  { s with visualization := { s.visualization with selectedLayerId := layerId } }

/-- `setHoveredLayer` from `networkStore.ts`. -/
def NetworkStore.setHoveredLayer (s : NetworkStore) (layerId : Option String) : NetworkStore :=
  { s with visualization := { s.visualization with hoveredLayerId := layerId } }

/-- `startTour` from `networkStore.ts`. -/
def NetworkStore.startTour (s : NetworkStore) : NetworkStore :=
  { s with ui := { s.ui with isTourActive := true, currentTourStep := 0 } }

/-- `nextTourStep` from `networkStore.ts`. -/
def NetworkStore.nextTourStep (s : NetworkStore) : NetworkStore :=
  { s with ui := { s.ui with currentTourStep := s.ui.currentTourStep + 1 } }

/-- `previousTourStep` from `networkStore.ts` (`Math.max(0, step - 1)`). -/
def NetworkStore.previousTourStep (s : NetworkStore) : NetworkStore :=
  { s with ui := { s.ui with currentTourStep := max 0 (s.ui.currentTourStep - 1) } }

/-- `endTour` from `networkStore.ts`. -/
def NetworkStore.endTour (s : NetworkStore) : NetworkStore :=
  { s with ui := { s.ui with isTourActive := false, currentTourStep := 0 } }

/-- NaN-propagating JS addition (`none` = NaN). -/
def jsAddQ : Option ℚ → Option ℚ → Option ℚ
  | some a, some b => some (a + b)
  | _, _ => none

/-- NaN-propagating JS multiplication (`none` = NaN; the operands produced
inside `getTotalParameters` are never infinities, so `0 * NaN = NaN` is the
only absorbing case and is modelled correctly). -/
def jsMulQ : Option ℚ → Option ℚ → Option ℚ
  | some a, some b => some (a * b)
  | _, _ => none

/-- One iteration of the `layers.forEach` in `getTotalParameters`: the
accumulator is `(total, prevUnits)`. -/
def totalParamsStep (acc : Option ℚ × Option ℚ) (layer : NetworkLayer) :
    Option ℚ × Option ℚ :=
  match layer.type with
  | .dense =>
      let units := asNumV (lookupP layer.params "units")
      (jsAddQ acc.1 (jsAddQ (jsMulQ acc.2 units) units), units)
  | .conv2d =>
      let filters := asNumV (lookupP layer.params "filters")
      let kernelSize := asNumV (lookupP layer.params "kernel_size")
      (jsAddQ acc.1 (jsAddQ (jsMulQ (jsMulQ (jsMulQ kernelSize kernelSize) acc.2) filters) filters),
       filters)
  | _ => acc

/-- `getTotalParameters` from `networkStore.ts`: `total` starts at 0 and
`prevUnits` at 784. -/
def NetworkStore.getTotalParameters (s : NetworkStore) : Option ℚ :=
  (s.layers.foldl totalParamsStep (some 0, some 784)).1

/-- `getLayerCount` from `networkStore.ts`. -/
def NetworkStore.getLayerCount (s : NetworkStore) : ℕ :=
  s.layers.length

/-- The `initialTemplate` lookup `architectureTemplates.find(t => t.id ===
'mlp')!` (the non-null assertion holds: the registry contains `mlp`). -/
def initialTemplate : ArchitectureTemplate :=
  (architectureTemplates.find? (fun t => t.id == "mlp")).getD default

/-- The `initialState` object of `networkStore.ts`, parametrised by the id
and weight supplies consumed while building the initial MLP layers. -/
def mkInitialState (ids : ℕ → String) (wt : ℕ → ℚ) : NetworkStore :=
  let initialLayers := createLayersFromTemplate initialTemplate ids
  { currentArchitecture := "mlp",
    layers := initialLayers,
    connections := generateConnections initialLayers wt,
    training :=
      { isTraining := false, currentEpoch := 0, totalEpochs := 100,
        loss := 0, accuracy := 0, lossHistory := [], accuracyHistory := [] },
    config :=
      { learningRate := 1/1000, batchSize := 32, epochs := 100,
        optimizer := "adam", lossFunction := "categorical_crossentropy" },
    visualization :=
      { showDataFlow := true, showWeights := false, showGradients := false,
        animationSpeed := 1, selectedLayerId := none, hoveredLayerId := none,
        viewMode := "3d", cameraPosition := ⟨0, 5, 15⟩ },
    ui :=
      { leftPanelOpen := true, rightPanelOpen := true, rightPanelTab := "parameters",
        isTourActive := false, currentTourStep := 0, theme := "dark" } }

/-- A concrete id supply used to instantiate hypotheses on sample states. -/
def sampleIds : ℕ → String := fun n => "L" ++ toString n

/-- A concrete connection-weight supply for sample states. -/
def sampleWt : ℕ → ℚ := fun _ => 0

/-- A concrete store: the initial MLP state under the sample supplies. -/
def sampleStore : NetworkStore := mkInitialState sampleIds sampleWt

/-- The position formula as the spec states it: `x = -((N-1)*S)/2 + i*S`
with fixed spacing `S = 3`, `y = z = 0`. -/
def specPos (i n : ℕ) : Vec3 :=
  { x := -(((n : ℚ) - 1) * 3) / 2 + (i : ℚ) * 3, y := 0, z := 0 }

/-- Everything of a layer except its (derived, recomputed) position: used to
state that an operation restores the layer sequence itself. -/
def layerData (l : NetworkLayer) :
    String × LayerType × String × Params × Option ℚ × Option (List ℚ) :=
  (l.id, l.type, l.name, l.params, l.neurons, l.shape)

/-- The four tour-navigation actions of the store, as data. -/
inductive TourOp : Type where
  | startTour
  | nextTourStep
  | previousTourStep
  | endTour
deriving DecidableEq, Repr

/-- Dispatch a tour operation to the corresponding store action. -/
def applyTourOp (s : NetworkStore) : TourOp → NetworkStore
  | .startTour => s.startTour
  | .nextTourStep => s.nextTourStep
  | .previousTourStep => s.previousTourStep
  | .endTour => s.endTour

/-- One training-progress tick as driven by the external simulation loop:
`updateTrainingProgress(epoch, loss, accuracy)` on a triple. -/
def applyProgress (s : NetworkStore) (c : ℚ × ℚ × ℚ) : NetworkStore :=
  s.updateTrainingProgress c.1 c.2.1 c.2.2

/-- The sample store with `config.epochs` set to 50 (after the UI-side
`updateConfig(\x7bepochs: 50\x7d)`), for the training-ceiling scenario. -/
def epochsFiftyStore : NetworkStore :=
  { sampleStore with config := { sampleStore.config with epochs := 50 } }

/-- A concrete dense layer with 10 units, for the parameter-count example. -/
def denseTenLayer : NetworkLayer :=
  { id := "D", type := .dense, name := "Dense",
    params := [("units", .num 10), ("activation", .str "softmax")],
    position := ⟨0, 0, 0⟩, neurons := some 10, shape := none }

/-- The sample store holding only the single dense(10) layer. -/
def denseTenStore : NetworkStore :=
  { sampleStore with layers := [denseTenLayer], connections := [] }

/-- Mapping commutes with `eraseIdx`. -/
theorem map_eraseIdx (f : α → β) : ∀ (l : List α) (i : ℕ),
    (l.eraseIdx i).map f = (l.map f).eraseIdx i
  | [], _ => rfl
  | _ :: _, 0 => rfl
  | a :: tl, i + 1 => congrArg (f a :: ·) (map_eraseIdx f tl i)

/-- Mapping commutes with `insertIdx`. -/
theorem map_insertIdx (f : α → β) : ∀ (l : List α) (i : ℕ) (x : α),
    (l.insertIdx i x).map f = (l.map f).insertIdx i (f x)
  | _, 0, _ => rfl
  | [], _ + 1, _ => rfl
  | a :: tl, i + 1, x => congrArg (f a :: ·) (map_insertIdx f tl i x)

/-- Splicing an element back where it was removed restores the list. -/
theorem insertIdx_get_eraseIdx : ∀ (l : List α) (i : ℕ) (h : i < l.length),
    (l.eraseIdx i).insertIdx i (l.get ⟨i, h⟩) = l
  | [], i, h => absurd h (by simp)
  | _ :: _, 0, _ => rfl
  | a :: tl, i + 1, h =>
      congrArg (a :: ·) (insertIdx_get_eraseIdx tl i (Nat.lt_of_succ_lt_succ h))

/-- With an in-range source index the `min` clamp of `listMove` is inert. -/
theorem listMove_of_lt {l : List α} {i j : ℕ} (hi : i < l.length) (hj : j < l.length) :
    listMove l i j = (l.eraseIdx i).insertIdx j (l.get ⟨i, hi⟩) := by
  have h1 : (l.eraseIdx i).length + 1 = l.length := List.length_eraseIdx_add_one hi
  have h2 : j ≤ (l.eraseIdx i).length := by omega
  unfold listMove
  rw [dif_pos hi, min_eq_left h2]

/-- An in-range move preserves length. -/
theorem listMove_length {l : List α} {i j : ℕ} (hi : i < l.length) (hj : j < l.length) :
    (listMove l i j).length = l.length := by
  rw [listMove_of_lt hi hj]
  have h1 : (l.eraseIdx i).length + 1 = l.length := List.length_eraseIdx_add_one hi
  have h2 := List.length_insertIdx (a := l.get ⟨i, hi⟩) j (l.eraseIdx i) (by omega)
  omega

/-- Mapping commutes with `listMove`. -/
theorem map_listMove (f : α → β) (l : List α) (i j : ℕ) :
    (listMove l i j).map f = listMove (l.map f) i j := by
  unfold listMove
  by_cases h : i < l.length
  · rw [dif_pos h, dif_pos (by simpa using h)]
    rw [map_insertIdx, map_eraseIdx]
    have hget : (l.map f).get ⟨i, by simpa using h⟩ = f (l.get ⟨i, h⟩) := by
      simp [List.get_eq_getElem]
    rw [hget]
    have hlen : ((l.map f).eraseIdx i).length = (l.eraseIdx i).length := by
      rw [← map_eraseIdx, List.length_map]
    rw [hlen]
  · rw [dif_neg h, dif_neg (by simpa using h)]

/-- Moving an element from `i` to `j` and back restores the list. -/
theorem listMove_roundtrip (l : List α) (i j : ℕ) (hi : i < l.length) (hj : j < l.length) :
    listMove (listMove l i j) j i = l := by
  have h1 : (l.eraseIdx i).length + 1 = l.length := List.length_eraseIdx_add_one hi
  have hjr : j ≤ (l.eraseIdx i).length := by omega
  rw [listMove_of_lt hi hj]
  have hlen1 : ((l.eraseIdx i).insertIdx j (l.get ⟨i, hi⟩)).length = l.length := by
    have := List.length_insertIdx (a := l.get ⟨i, hi⟩) j (l.eraseIdx i) hjr
    omega
  have hj1 : j < ((l.eraseIdx i).insertIdx j (l.get ⟨i, hi⟩)).length := by omega
  have hi1 : i < ((l.eraseIdx i).insertIdx j (l.get ⟨i, hi⟩)).length := by omega
  rw [listMove_of_lt hj1 hi1]
  rw [List.get_insertIdx_self (l.eraseIdx i) (l.get ⟨i, hi⟩) j hjr hj1]
  rw [List.eraseIdx_insertIdx]
  exact insertIdx_get_eraseIdx l i hi

/-- The recompute pass rewrites exactly the position of the element at each
index, threading the running index. -/
theorem recomputeAux_getElem (total : ℕ) : ∀ (ls : List NetworkLayer) (i k : ℕ),
    (recomputeAux total i ls)[k]? =
      (ls[k]?).map (fun l => { l with position := calculateLayerPosition (i + k) total })
  | [], _, _ => by simp [recomputeAux]
  | _ :: _, _, 0 => by simp [recomputeAux]
  | _ :: rest, i, k + 1 => by
      simp only [recomputeAux, List.getElem?_cons_succ]
      rw [recomputeAux_getElem total rest (i + 1) k]
      have h : i + 1 + k = i + (k + 1) := by omega
      rw [h]

/-- The recompute pass preserves length. -/
theorem recomputeAux_length (total : ℕ) : ∀ (ls : List NetworkLayer) (i : ℕ),
    (recomputeAux total i ls).length = ls.length
  | [], _ => rfl
  | _ :: rest, i => congrArg Nat.succ (recomputeAux_length total rest (i + 1))

/-- Length of `recomputePositions`. -/
theorem recomputePositions_length (ls : List NetworkLayer) :
    (recomputePositions ls).length = ls.length :=
  recomputeAux_length ls.length ls 0

/-- Element of `recomputePositions`: the original layer with its position
set from its index and the total count. -/
theorem recomputePositions_getElem (ls : List NetworkLayer) (k : ℕ) :
    (recomputePositions ls)[k]? =
      (ls[k]?).map (fun l => { l with position := calculateLayerPosition k ls.length }) := by
  simpa using recomputeAux_getElem ls.length ls 0 k

/-- The recompute pass changes no field other than `position`. -/
theorem recomputeAux_map_layerData (total : ℕ) : ∀ (ls : List NetworkLayer) (i : ℕ),
    (recomputeAux total i ls).map layerData = ls.map layerData
  | [], _ => rfl
  | _ :: rest, i => by
      simp only [recomputeAux, List.map_cons]
      rw [recomputeAux_map_layerData total rest (i + 1)]
      rfl

/-- `recomputePositions` changes no field other than `position`. -/
theorem recomputePositions_map_layerData (ls : List NetworkLayer) :
    (recomputePositions ls).map layerData = ls.map layerData :=
  recomputeAux_map_layerData ls.length ls 0

/-- Template construction builds exactly one layer per config, in order. -/
theorem createLayersAux_length (ids : ℕ → String) (total : ℕ) :
    ∀ (cs : List LayerConfig) (i : ℕ), (createLayersAux ids total i cs).length = cs.length
  | [], _ => rfl
  | _ :: rest, i => congrArg Nat.succ (createLayersAux_length ids total rest (i + 1))

/-- Element of the template construction: the layer built from the config at
the same index. -/
theorem createLayersAux_getElem (ids : ℕ → String) (total : ℕ) :
    ∀ (cs : List LayerConfig) (i k : ℕ),
    (createLayersAux ids total i cs)[k]? = (cs[k]?).map (layerOfConfig ids total (i + k))
  | [], _, _ => by simp [createLayersAux]
  | _ :: _, _, 0 => by simp [createLayersAux]
  | _ :: rest, i, k + 1 => by
      simp only [createLayersAux, List.getElem?_cons_succ]
      rw [createLayersAux_getElem ids total rest (i + 1) k]
      have h : i + 1 + k = i + (k + 1) := by omega
      rw [h]

/-- `generateConnections` emits one record per adjacent pair. -/
theorem generateConnections_length : ∀ (ls : List NetworkLayer) (wt : ℕ → ℚ),
    (generateConnections ls wt).length = ls.length - 1
  | [], _ => rfl
  | [_], _ => rfl
  | _ :: b :: rest, wt => by
      simp only [generateConnections, List.length_cons]
      rw [generateConnections_length (b :: rest)]
      simp

/-- Connection `i` links the layers at indices `i` and `i + 1`, with the
derived id and the `i`-th random weight. -/
theorem generateConnections_getElem :
    ∀ (ls : List NetworkLayer) (wt : ℕ → ℚ) (i : ℕ) (a b : NetworkLayer),
    ls[i]? = some a → ls[i + 1]? = some b →
    (generateConnections ls wt)[i]? =
      some { id := "conn_" ++ a.id ++ "_" ++ b.id, fromLayerId := a.id, toLayerId := b.id,
             weight := some (wt i), isActive := some false }
  | [], _, i, a, b => by simp
  | [x], wt, i, a, b => by
      intro _ h2
      rw [List.getElem?_cons_succ] at h2
      simp at h2
  | x :: y :: rest, wt, 0, a, b => by
      intro h1 h2
      rw [List.getElem?_cons_zero] at h1
      rw [List.getElem?_cons_succ, List.getElem?_cons_zero] at h2
      cases h1
      cases h2
      simp [generateConnections]
  | x :: y :: rest, wt, i + 1, a, b => by
      intro h1 h2
      rw [List.getElem?_cons_succ] at h1
      rw [List.getElem?_cons_succ] at h2
      have h := generateConnections_getElem (y :: rest) (fun n => wt (n + 1)) i a b h1 h2
      simpa [generateConnections] using h

/-- Key lookup distributes over list append, preferring the left part. -/
theorem lookupP_append (x y : Params) (k : String) :
    lookupP (x ++ y) k = (lookupP x k).or (lookupP y k) := by
  induction x with
  | nil => simp [lookupP]
  | cons kv rest ih =>
      obtain ⟨k0, v0⟩ := kv
      by_cases h : k0 = k
      · simp [lookupP, h]
      · simp [lookupP, h, ih]

/-- Lookup through the key-preserving value rewrite of the spread's left
part. -/
theorem lookupP_map_override (a b : Params) (k : String) :
    lookupP (a.map (fun kv => (kv.1, (lookupP b kv.1).getD kv.2))) k =
      (lookupP a k).map (fun v => (lookupP b k).getD v) := by
  induction a with
  | nil => simp [lookupP]
  | cons kv rest ih =>
      obtain ⟨k0, v0⟩ := kv
      by_cases h : k0 = k
      · subst h; simp [lookupP]
      · simp [lookupP, h, ih]

/-- Lookup through a key-predicate filter. -/
theorem lookupP_filter_key (b : Params) (p : String → Bool) (k : String) :
    lookupP (b.filter (fun kv => p kv.1)) k = if p k then lookupP b k else none := by
  induction b with
  | nil => simp [lookupP]
  | cons kv rest ih =>
      obtain ⟨k0, v0⟩ := kv
      by_cases h : k0 = k
      · subst h
        by_cases hp : p k0 <;> simp [List.filter_cons, hp, lookupP, ih]
      · by_cases hp : p k0 <;> simp [List.filter_cons, hp, lookupP, h, ih]

/-- A key is present exactly when its lookup succeeds. -/
theorem hasKeyP_iff_lookupP (a : Params) (k : String) :
    hasKeyP a k = (lookupP a k).isSome := by
  induction a with
  | nil => simp [hasKeyP, lookupP]
  | cons kv rest ih =>
      obtain ⟨k0, v0⟩ := kv
      by_cases h : k0 = k
      · subst h; simp [hasKeyP, lookupP]
      · have hbeq : (k0 == k) = false := beq_eq_false_iff_ne.mpr h
        simp [hasKeyP, lookupP, h, hbeq] at ih ⊢
        exact ih

/-- The JS-spread merge, observed through lookup: keys of the update `b`
replace, untouched keys of `a` survive. -/
theorem lookupP_mergeParams (a b : Params) (k : String) :
    lookupP (mergeParams a b) k = (lookupP b k).or (lookupP a k) := by
  unfold mergeParams
  rw [lookupP_append, lookupP_map_override, lookupP_filter_key b (fun s => !hasKeyP a s) k]
  rw [hasKeyP_iff_lookupP]
  cases ha : lookupP a k with
  | none => simp
  | some v =>
      cases hb : lookupP b k with
      | none => simp
      | some w => simp

/-- After a recompute pass the layer found at index `i` carries the spec's
symmetric position for index `i` and the final count. -/
theorem position_of_recompute (m : List NetworkLayer) (i : ℕ) (l : NetworkLayer)
    (h : (recomputePositions m)[i]? = some l) :
    l.position = specPos i (recomputePositions m).length := by
  rw [recomputePositions_getElem] at h
  cases hm : m[i]? with
  | none => rw [hm] at h; simp at h
  | some l0 =>
      rw [hm] at h
      simp only [Option.map_some', Option.some.injEq] at h
      subst h
      rw [recomputePositions_length]
      rfl

/-- Layers built from a template carry the spec's symmetric position. -/
theorem position_of_template (t : ArchitectureTemplate) (ids : ℕ → String) (i : ℕ)
    (l : NetworkLayer) (h : (createLayersFromTemplate t ids)[i]? = some l) :
    l.position = specPos i (createLayersFromTemplate t ids).length := by
  unfold createLayersFromTemplate at h ⊢
  rw [createLayersAux_getElem] at h
  cases hm : t.layers[i]? with
  | none => rw [hm] at h; simp at h
  | some c =>
      rw [hm] at h
      simp only [Option.map_some', Option.some.injEq] at h
      subst h
      rw [createLayersAux_length]
      simp [layerOfConfig, calculateLayerPosition, specPos]

/-- The generated connection count is `max(0, N-1)` over the integers. -/
theorem connections_of_generate (m : List NetworkLayer) (wt : ℕ → ℚ) :
    ((generateConnections m wt).length : ℤ) = max 0 ((m.length : ℤ) - 1) := by
  have h := generateConnections_length m wt
  omega

/-- `totalParamsStep` on a dense layer with numeric `units`. -/
theorem totalParamsStep_dense (l : NetworkLayer) (t p u : ℚ)
    (hty : l.type = .dense) (hu : lookupP l.params "units" = some (.num u)) :
    totalParamsStep (some t, some p) l = (some (t + (p * u + u)), some u) := by
  unfold totalParamsStep
  rw [hty, hu]
  simp [asNumV, jsAddQ, jsMulQ]

/-- `totalParamsStep` on a conv2d layer with numeric `filters` and
`kernel_size`. -/
theorem totalParamsStep_conv2d (l : NetworkLayer) (t p f k : ℚ)
    (hty : l.type = .conv2d) (hf : lookupP l.params "filters" = some (.num f))
    (hk : lookupP l.params "kernel_size" = some (.num k)) :
    totalParamsStep (some t, some p) l = (some (t + (k * k * p * f + f)), some f) := by
  unfold totalParamsStep
  rw [hty, hf, hk]
  simp [asNumV, jsAddQ, jsMulQ]

/-- Every other layer type leaves both the total and the running width
untouched. -/
theorem totalParamsStep_other (l : NetworkLayer) (acc : Option ℚ × Option ℚ)
    (h1 : l.type ≠ .dense) (h2 : l.type ≠ .conv2d) : totalParamsStep acc l = acc := by
  unfold totalParamsStep
  cases hl : l.type <;> first | rfl | exact absurd hl h1 | exact absurd hl h2

/-- The spec's worked example: a single dense layer with 10 units against
the seeded width 784 counts 784*10+10 = 7850 parameters. -/
theorem getTotalParameters_single_dense (s : NetworkStore) (l : NetworkLayer)
    (hs : s.layers = [l]) (hty : l.type = .dense)
    (hu : lookupP l.params "units" = some (.num 10)) :
    s.getTotalParameters = some 7850 := by
  unfold NetworkStore.getTotalParameters
  rw [hs]
  simp only [List.foldl_cons, List.foldl_nil]
  rw [totalParamsStep_dense l 0 784 10 hty hu]
  norm_num

/-- `updateLayerParams` on the matching layer: params merged, neurons
refreshed through the truthiness rule. -/
theorem updateLayerParams_target (s : NetworkStore) (lid : String) (p : Params)
    (i : ℕ) (l : NetworkLayer) (h : s.layers[i]? = some l) (hid : l.id = lid) :
    (s.updateLayerParams lid p).layers[i]? =
      some { l with params := mergeParams l.params p,
                    neurons := truthyNumOrElse (lookupP p "units") l.neurons } := by
  show (s.layers.map _)[i]? = _
  rw [List.getElem?_map, h]
  simp [hid]

/-- `updateLayerParams` leaves non-matching layers untouched. -/
theorem updateLayerParams_frame (s : NetworkStore) (lid : String) (p : Params)
    (i : ℕ) (l : NetworkLayer) (h : s.layers[i]? = some l) (hid : l.id ≠ lid) :
    (s.updateLayerParams lid p).layers[i]? = some l := by
  show (s.layers.map _)[i]? = _
  rw [List.getElem?_map, h]
  simp [hid]

/-- A truthy (nonzero) numeric `units` refreshes the cached field. -/
theorem truthyNumOrElse_num (u : ℚ) (old : Option ℚ) (hu : u ≠ 0) :
    truthyNumOrElse (some (.num u)) old = some u := by
  simp [truthyNumOrElse, hu]

/-- A zero (falsy) `units` falls back to the previous value. -/
theorem truthyNumOrElse_zero (old : Option ℚ) :
    truthyNumOrElse (some (.num 0)) old = old := by
  simp [truthyNumOrElse]

/-- A missing `units` falls back to the previous value. -/
theorem truthyNumOrElse_none (old : Option ℚ) :
    truthyNumOrElse none old = old := rfl

/-- Each progress tick appends exactly one entry to each history. -/
theorem foldl_progress_histories : ∀ (calls : List (ℚ × ℚ × ℚ)) (s : NetworkStore),
    ((calls.foldl applyProgress s).training.lossHistory.length
        = s.training.lossHistory.length + calls.length) ∧
    ((calls.foldl applyProgress s).training.accuracyHistory.length
        = s.training.accuracyHistory.length + calls.length)
  | [], s => by simp
  | c :: rest, s => by
      simp only [List.foldl_cons, List.length_cons]
      have ih := foldl_progress_histories rest (applyProgress s c)
      have h1 : (applyProgress s c).training.lossHistory.length
          = s.training.lossHistory.length + 1 := by
        simp [applyProgress, NetworkStore.updateTrainingProgress]
      have h2 : (applyProgress s c).training.accuracyHistory.length
          = s.training.accuracyHistory.length + 1 := by
        simp [applyProgress, NetworkStore.updateTrainingProgress]
      constructor
      · rw [ih.1, h1]; omega
      · rw [ih.2, h2]; omega

/-- Every tour action preserves non-negativity of the tour step. -/
theorem tour_invariant : ∀ (ops : List TourOp) (s : NetworkStore),
    0 ≤ s.ui.currentTourStep → 0 ≤ (ops.foldl applyTourOp s).ui.currentTourStep
  | [], _, h => h
  | op :: rest, s, h => by
      simp only [List.foldl_cons]
      apply tour_invariant rest
      cases op
      · simp [applyTourOp, NetworkStore.startTour]
      · simp only [applyTourOp, NetworkStore.nextTourStep]; omega
      · simp only [applyTourOp, NetworkStore.previousTourStep]
        exact le_max_left _ _
      · simp [applyTourOp, NetworkStore.endTour]

/-- C1: after every structural mutation (addLayer, removeLayer,
reorderLayers with in-range indices, setArchitecture with a known template,
loadTemplate) leaving N layers, the layer at each index i has position
x = -((N-1)*3)/2 + i*3 and y = z = 0. -/
theorem claim_C1_positions :
    (∀ (s : NetworkStore) (ty : LayerType) (p : Params) (nid : String) (wt : ℕ → ℚ)
        (i : ℕ) (l : NetworkLayer),
        (s.addLayer ty p nid wt).layers[i]? = some l →
        l.position = specPos i (s.addLayer ty p nid wt).layers.length) ∧
    (∀ (s : NetworkStore) (lid : String) (wt : ℕ → ℚ) (i : ℕ) (l : NetworkLayer),
        (s.removeLayer lid wt).layers[i]? = some l →
        l.position = specPos i (s.removeLayer lid wt).layers.length) ∧
    (∀ (s : NetworkStore) (a b : ℕ) (wt : ℕ → ℚ) (i : ℕ) (l : NetworkLayer),
        a < s.layers.length → b < s.layers.length →
        (s.reorderLayers a b wt).layers[i]? = some l →
        l.position = specPos i (s.reorderLayers a b wt).layers.length) ∧
    (∀ (s : NetworkStore) (ty : String) (ids : ℕ → String) (wt : ℕ → ℚ)
        (t : ArchitectureTemplate) (i : ℕ) (l : NetworkLayer),
        architectureTemplates.find? (fun tp => tp.id == ty) = some t →
        (s.setArchitecture ty ids wt).layers[i]? = some l →
        l.position = specPos i (s.setArchitecture ty ids wt).layers.length) ∧
    (∀ (s : NetworkStore) (t : ArchitectureTemplate) (ids : ℕ → String) (wt : ℕ → ℚ)
        (i : ℕ) (l : NetworkLayer),
        (s.loadTemplate t ids wt).layers[i]? = some l →
        l.position = specPos i (s.loadTemplate t ids wt).layers.length) := by
  refine ⟨?_, ?_, ?_, ?_, ?_⟩
  · intro s ty p nid wt i l h
    exact position_of_recompute _ i l h
  · intro s lid wt i l h
    exact position_of_recompute _ i l h
  · intro s a b wt i l _ _ h
    exact position_of_recompute _ i l h
  · intro s ty ids wt t i l hf h
    have e : s.setArchitecture ty ids wt =
        { s with currentArchitecture := ty,
                 layers := createLayersFromTemplate t ids,
                 connections := generateConnections (createLayersFromTemplate t ids) wt } := by
      unfold NetworkStore.setArchitecture
      rw [hf]
    rw [e] at h ⊢
    exact position_of_template t ids i l h
  · intro s t ids wt i l h
    exact position_of_template t ids i l h

/-- Witness for C1: the first layer after adding a dense layer to the sample
MLP store sits at the recomputed symmetric position. -/
theorem claim_C1_witness :
    ((sampleStore.addLayer .dense [] "L9" sampleWt).layers.getD 0 default).position
      = specPos 0 (sampleStore.addLayer .dense [] "L9" sampleWt).layers.length :=
  claim_C1_positions.1 sampleStore .dense [] "L9" sampleWt 0 _ (by rfl)

/-- C2: after every structural mutation the connection count is
max(0, N-1), and the connection at index i links the layers at indices i
and i+1 with the id `conn_<fromId>_<toId>` (and the i-th fresh random
weight). -/
theorem claim_C2_connections :
    (∀ (s : NetworkStore) (ty : LayerType) (p : Params) (nid : String) (wt : ℕ → ℚ),
        (((s.addLayer ty p nid wt).connections.length : ℤ)
            = max 0 (((s.addLayer ty p nid wt).layers.length : ℤ) - 1)) ∧
        ∀ (i : ℕ) (a b : NetworkLayer),
          (s.addLayer ty p nid wt).layers[i]? = some a →
          (s.addLayer ty p nid wt).layers[i + 1]? = some b →
          (s.addLayer ty p nid wt).connections[i]? =
            some { id := "conn_" ++ a.id ++ "_" ++ b.id, fromLayerId := a.id,
                   toLayerId := b.id, weight := some (wt i), isActive := some false }) ∧
    (∀ (s : NetworkStore) (lid : String) (wt : ℕ → ℚ),
        (((s.removeLayer lid wt).connections.length : ℤ)
            = max 0 (((s.removeLayer lid wt).layers.length : ℤ) - 1)) ∧
        ∀ (i : ℕ) (a b : NetworkLayer),
          (s.removeLayer lid wt).layers[i]? = some a →
          (s.removeLayer lid wt).layers[i + 1]? = some b →
          (s.removeLayer lid wt).connections[i]? =
            some { id := "conn_" ++ a.id ++ "_" ++ b.id, fromLayerId := a.id,
                   toLayerId := b.id, weight := some (wt i), isActive := some false }) ∧
    (∀ (s : NetworkStore) (a b : ℕ) (wt : ℕ → ℚ),
        a < s.layers.length → b < s.layers.length →
        ((((s.reorderLayers a b wt).connections.length : ℤ)
            = max 0 (((s.reorderLayers a b wt).layers.length : ℤ) - 1)) ∧
        ∀ (i : ℕ) (x y : NetworkLayer),
          (s.reorderLayers a b wt).layers[i]? = some x →
          (s.reorderLayers a b wt).layers[i + 1]? = some y →
          (s.reorderLayers a b wt).connections[i]? =
            some { id := "conn_" ++ x.id ++ "_" ++ y.id, fromLayerId := x.id,
                   toLayerId := y.id, weight := some (wt i), isActive := some false })) ∧
    (∀ (s : NetworkStore) (ty : String) (ids : ℕ → String) (wt : ℕ → ℚ)
        (t : ArchitectureTemplate),
        architectureTemplates.find? (fun tp => tp.id == ty) = some t →
        ((((s.setArchitecture ty ids wt).connections.length : ℤ)
            = max 0 (((s.setArchitecture ty ids wt).layers.length : ℤ) - 1)) ∧
        ∀ (i : ℕ) (a b : NetworkLayer),
          (s.setArchitecture ty ids wt).layers[i]? = some a →
          (s.setArchitecture ty ids wt).layers[i + 1]? = some b →
          (s.setArchitecture ty ids wt).connections[i]? =
            some { id := "conn_" ++ a.id ++ "_" ++ b.id, fromLayerId := a.id,
                   toLayerId := b.id, weight := some (wt i), isActive := some false })) ∧
    (∀ (s : NetworkStore) (t : ArchitectureTemplate) (ids : ℕ → String) (wt : ℕ → ℚ),
        (((s.loadTemplate t ids wt).connections.length : ℤ)
            = max 0 (((s.loadTemplate t ids wt).layers.length : ℤ) - 1)) ∧
        ∀ (i : ℕ) (a b : NetworkLayer),
          (s.loadTemplate t ids wt).layers[i]? = some a →
          (s.loadTemplate t ids wt).layers[i + 1]? = some b →
          (s.loadTemplate t ids wt).connections[i]? =
            some { id := "conn_" ++ a.id ++ "_" ++ b.id, fromLayerId := a.id,
                   toLayerId := b.id, weight := some (wt i), isActive := some false }) := by
  refine ⟨?_, ?_, ?_, ?_, ?_⟩
  · intro s ty p nid wt
    exact ⟨connections_of_generate _ wt,
           fun i a b ha hb => generateConnections_getElem _ wt i a b ha hb⟩
  · intro s lid wt
    exact ⟨connections_of_generate _ wt,
           fun i a b ha hb => generateConnections_getElem _ wt i a b ha hb⟩
  · intro s a b wt _ _
    exact ⟨connections_of_generate _ wt,
           fun i x y hx hy => generateConnections_getElem _ wt i x y hx hy⟩
  · intro s ty ids wt t hf
    have e : s.setArchitecture ty ids wt =
        { s with currentArchitecture := ty,
                 layers := createLayersFromTemplate t ids,
                 connections := generateConnections (createLayersFromTemplate t ids) wt } := by
      unfold NetworkStore.setArchitecture
      rw [hf]
    rw [e]
    exact ⟨connections_of_generate _ wt,
           fun i a b ha hb => generateConnections_getElem _ wt i a b ha hb⟩
  · intro s t ids wt
    exact ⟨connections_of_generate _ wt,
           fun i a b ha hb => generateConnections_getElem _ wt i a b ha hb⟩

/-- Witness for C2: the first connection after adding a layer to the sample
store links the first two layers with the derived id. -/
theorem claim_C2_witness :
    (sampleStore.addLayer .flatten [] "L9" sampleWt).connections[0]? =
      some { id := "conn_"
                ++ ((sampleStore.addLayer .flatten [] "L9" sampleWt).layers.getD 0 default).id
                ++ "_"
                ++ ((sampleStore.addLayer .flatten [] "L9" sampleWt).layers.getD 1 default).id,
             fromLayerId := ((sampleStore.addLayer .flatten [] "L9" sampleWt).layers.getD 0 default).id,
             toLayerId := ((sampleStore.addLayer .flatten [] "L9" sampleWt).layers.getD 1 default).id,
             weight := some (sampleWt 0), isActive := some false } :=
  (claim_C2_connections.1 sampleStore .flatten [] "L9" sampleWt).2 0 _ _ (by rfl) (by rfl)

/-- C3: getTotalParameters walks the layers with a width counter seeded at
784; dense adds prevUnits*units+units and sets the counter to units; conv2d
adds kernel_size^2*prevUnits*filters+filters and sets it to filters; every
other type contributes nothing; and on [dense(units=10)] it returns 7850. -/
theorem claim_C3_totalParameters :
    (∀ (l : NetworkLayer) (t p u : ℚ),
        l.type = .dense → lookupP l.params "units" = some (.num u) →
        totalParamsStep (some t, some p) l = (some (t + (p * u + u)), some u)) ∧
    (∀ (l : NetworkLayer) (t p f k : ℚ),
        l.type = .conv2d → lookupP l.params "filters" = some (.num f) →
        lookupP l.params "kernel_size" = some (.num k) →
        totalParamsStep (some t, some p) l = (some (t + (k * k * p * f + f)), some f)) ∧
    (∀ (l : NetworkLayer) (acc : Option ℚ × Option ℚ),
        l.type ≠ .dense → l.type ≠ .conv2d → totalParamsStep acc l = acc) ∧
    (∀ (s : NetworkStore),
        s.getTotalParameters = (s.layers.foldl totalParamsStep (some 0, some 784)).1) ∧
    (∀ (s : NetworkStore) (l : NetworkLayer),
        s.layers = [l] → l.type = .dense → lookupP l.params "units" = some (.num 10) →
        s.getTotalParameters = some 7850) :=
  ⟨totalParamsStep_dense, totalParamsStep_conv2d, totalParamsStep_other,
   fun _ => rfl, getTotalParameters_single_dense⟩

/-- Witness for C3: the concrete single-dense(10) store counts 7850. -/
theorem claim_C3_witness : denseTenStore.getTotalParameters = some 7850 :=
  claim_C3_totalParameters.2.2.2.2 denseTenStore denseTenLayer rfl rfl rfl

/-- Appending one layer and recomputing keeps every prior layer's identity,
type and params, and puts the new layer at the end. -/
theorem append_recompute_parts (m : List NetworkLayer) (x : NetworkLayer) :
    ((recomputePositions (m ++ [x])).length = m.length + 1) ∧
    (((recomputePositions (m ++ [x]))[m.length]?).map
        (fun l => (l.id, l.type, l.params)) = some (x.id, x.type, x.params)) ∧
    (∀ (i : ℕ) (l : NetworkLayer), m[i]? = some l →
      ((recomputePositions (m ++ [x]))[i]?).map (fun l2 => (l2.id, l2.type, l2.params)) =
        some (l.id, l.type, l.params)) := by
  refine ⟨?_, ?_, ?_⟩
  · rw [recomputePositions_length, List.length_append]
    rfl
  · rw [recomputePositions_getElem, List.getElem?_concat_length]
    rfl
  · intro i l h
    have hi : i < m.length := by
      by_contra hc
      push_neg at hc
      rw [List.getElem?_eq_none hc] at h
      simp at h
    rw [recomputePositions_getElem, List.getElem?_append_left hi, h]
    rfl

/-- C4: addLayer appends exactly one layer whose params are the type
defaults shallow-merged with the overrides (overrides win), forces the
architecture to custom, and keeps every other layer's id/type/params; on
the 4-layer sample MLP, addLayer(dropout, rate 0.3) yields 5 layers whose
last is a dropout with rate 0.3, and 4 connections. -/
theorem claim_C4_addLayer :
    (∀ (s : NetworkStore) (ty : LayerType) (p : Params) (nid : String) (wt : ℕ → ℚ),
        (s.addLayer ty p nid wt).layers.length = s.layers.length + 1 ∧
        (s.addLayer ty p nid wt).currentArchitecture = "custom" ∧
        (((s.addLayer ty p nid wt).layers[s.layers.length]?).map
            (fun l => (l.id, l.type, l.params)) =
          some (nid, ty, mergeParams (getDefaultParams ty) p)) ∧
        (∀ (i : ℕ) (l : NetworkLayer), s.layers[i]? = some l →
          ((s.addLayer ty p nid wt).layers[i]?).map (fun l2 => (l2.id, l2.type, l2.params)) =
            some (l.id, l.type, l.params))) ∧
    ((sampleStore.addLayer .dropout [("rate", .num (3/10))] "L99" sampleWt).layers.length = 5 ∧
     ((sampleStore.addLayer .dropout [("rate", .num (3/10))] "L99" sampleWt).layers[4]?).map
         (fun l => (l.type, lookupP l.params "rate")) = some (.dropout, some (.num (3/10))) ∧
     (sampleStore.addLayer .dropout [("rate", .num (3/10))] "L99" sampleWt).connections.length = 4 ∧
     (sampleStore.addLayer .dropout [("rate", .num (3/10))] "L99" sampleWt).currentArchitecture
        = "custom") := by
  constructor
  · intro s ty p nid wt
    exact ⟨(append_recompute_parts _ _).1, rfl, (append_recompute_parts _ _).2.1,
           fun i l h => (append_recompute_parts _ _).2.2 i l h⟩
  · exact ⟨rfl, rfl, rfl, rfl⟩

/-- Witness for C4: the first sample-store layer keeps its id, type and
params across the append. -/
theorem claim_C4_witness :
    ((sampleStore.addLayer .dropout [("rate", .num (3/10))] "L99" sampleWt).layers[0]?).map
        (fun l2 => (l2.id, l2.type, l2.params)) =
      some ((sampleStore.layers.getD 0 default).id, (sampleStore.layers.getD 0 default).type,
            (sampleStore.layers.getD 0 default).params) :=
  (claim_C4_addLayer.1 sampleStore .dropout [("rate", .num (3/10))] "L99" sampleWt).2.2.2
    0 _ (by rfl)

/-- C5: setArchitecture with an identifier absent from the template
registry leaves the entire store state unchanged (and, being a total
function, raises nothing). -/
theorem claim_C5_setArchitecture_unknown :
    ∀ (s : NetworkStore) (ty : String) (ids : ℕ → String) (wt : ℕ → ℚ),
      architectureTemplates.find? (fun t => t.id == ty) = none →
      s.setArchitecture ty ids wt = s := by
  intro s ty ids wt h
  unfold NetworkStore.setArchitecture
  rw [h]

/-- Witness for C5: the registry has no template with id `custom`, so the
call is an identity on the sample store. -/
theorem claim_C5_witness :
    sampleStore.setArchitecture "custom" sampleIds sampleWt = sampleStore :=
  claim_C5_setArchitecture_unknown sampleStore "custom" sampleIds sampleWt (by rfl)

/-- Counterexample for C6: removing the selected layer `L1` from the sample
store leaves `selectedLayerId` pointing at the removed layer — it is neither
null nor the id of any present layer. -/
theorem claim_C6_counterexample :
    ¬ ((((sampleStore.setSelectedLayer (some "L1")).removeLayer "L1" sampleWt).visualization.selectedLayerId = none) ∨
       (((sampleStore.setSelectedLayer (some "L1")).removeLayer "L1" sampleWt).layers.any
           (fun l => some l.id ==
             ((sampleStore.setSelectedLayer (some "L1")).removeLayer "L1" sampleWt).visualization.selectedLayerId)
         = true)) := by
  decide

/-- C6 as amended: the store does not maintain referential validity —
removeLayer never touches the selection or hover references, so a stale id
persists after its layer is removed. -/
theorem claim_C6_amended :
    ∀ (s : NetworkStore) (lid : String) (wt : ℕ → ℚ),
      (s.removeLayer lid wt).visualization.selectedLayerId
          = s.visualization.selectedLayerId ∧
      (s.removeLayer lid wt).visualization.hoveredLayerId
          = s.visualization.hoveredLayerId :=
  fun _ _ _ => ⟨rfl, rfl⟩

/-- Counterexample for C7: updating the dense layer `L1` with `units: 0`
merges 0 into its params but leaves `neurons` at the old 64 — the claimed
unconditional refresh to the units value fails on a zero (falsy) value. -/
theorem claim_C7_counterexample :
    (((sampleStore.updateLayerParams "L1" [("units", .num 0)]).layers[1]?).map
        (fun l => (l.id, lookupP l.params "units", l.neurons))
      = some ("L1", some (.num 0), some 64)) ∧
    ¬ (((sampleStore.updateLayerParams "L1" [("units", .num 0)]).layers[1]?).map
        (fun l => l.neurons) = some (some 0)) := by
  constructor
  · rfl
  · intro hc
    have h2 : ((sampleStore.updateLayerParams "L1" [("units", .num 0)]).layers[1]?).map
        (fun l => l.neurons) = some (some 64) := by rfl
    rw [h2] at hc
    exact absurd (Option.some.inj (Option.some.inj hc)) (by norm_num)

/-- C7 as amended: updateLayerParams shallow-merges (update keys replace,
untouched keys survive, e.g. units 64 + activation relu updated with units
128 gives units 128 + activation relu), leaves other layers alone, and
refreshes `neurons` to the units value only when that value is a nonzero
number — a zero or missing units leaves `neurons` unchanged. -/
theorem claim_C7_updateLayerParams_amended :
    (∀ (a b : Params) (k : String),
        lookupP (mergeParams a b) k = (lookupP b k).or (lookupP a k)) ∧
    (∀ (s : NetworkStore) (lid : String) (p : Params) (i : ℕ) (l : NetworkLayer),
        s.layers[i]? = some l → l.id = lid →
        (s.updateLayerParams lid p).layers[i]? =
          some { l with
                 params := mergeParams l.params p
                 neurons := truthyNumOrElse (lookupP p "units") l.neurons }) ∧
    (∀ (s : NetworkStore) (lid : String) (p : Params) (i : ℕ) (l : NetworkLayer),
        s.layers[i]? = some l → l.id ≠ lid →
        (s.updateLayerParams lid p).layers[i]? = some l) ∧
    (∀ (u : ℚ) (old : Option ℚ), u ≠ 0 →
        truthyNumOrElse (some (.num u)) old = some u) ∧
    (∀ (old : Option ℚ), truthyNumOrElse (some (.num 0)) old = old) ∧
    (∀ (old : Option ℚ), truthyNumOrElse none old = old) ∧
    (mergeParams [("units", .num 64), ("activation", .str "relu")] [("units", .num 128)]
      = [("units", .num 128), ("activation", .str "relu")]) :=
  ⟨lookupP_mergeParams, updateLayerParams_target, updateLayerParams_frame,
   fun u old hu => truthyNumOrElse_num u old hu, truthyNumOrElse_zero, truthyNumOrElse_none,
   by rfl⟩

/-- Witness for C7: updating `L1` of the sample store with units 128
produces exactly the merged-params, refreshed-neurons layer. -/
theorem claim_C7_witness :
    (sampleStore.updateLayerParams "L1" [("units", .num 128)]).layers[1]? =
      some { (sampleStore.layers.getD 1 default) with
             params := mergeParams (sampleStore.layers.getD 1 default).params
                         [("units", .num 128)],
             neurons := truthyNumOrElse (lookupP [("units", .num 128)] "units")
                          (sampleStore.layers.getD 1 default).neurons } :=
  claim_C7_updateLayerParams_amended.2.1 sampleStore "L1" [("units", .num 128)] 1 _
    (by rfl) (by rfl)

/-- C8: for valid adjacent indices, reorderLayers(i,j) then
reorderLayers(j,i) restores the original layer sequence (everything except
the recomputed positions), and reorderLayers never changes
currentArchitecture. -/
theorem claim_C8_reorder_roundtrip :
    (∀ (s : NetworkStore) (i j : ℕ) (wt wt2 : ℕ → ℚ),
        i < s.layers.length → j < s.layers.length → (i + 1 = j ∨ j + 1 = i) →
        ((s.reorderLayers i j wt).reorderLayers j i wt2).layers.map layerData
          = s.layers.map layerData) ∧
    (∀ (s : NetworkStore) (i j : ℕ) (wt : ℕ → ℚ),
        (s.reorderLayers i j wt).currentArchitecture = s.currentArchitecture) := by
  constructor
  · intro s i j wt wt2 hi hj _
    show (recomputePositions
        (listMove (recomputePositions (listMove s.layers i j)) j i)).map layerData
      = s.layers.map layerData
    rw [recomputePositions_map_layerData, map_listMove, recomputePositions_map_layerData,
        map_listMove]
    exact listMove_roundtrip _ i j (by simpa using hi) (by simpa using hj)
  · intro s i j wt
    rfl

/-- Witness for C8: moving layer 1 of the sample store to index 0 and back
restores the original sequence. -/
theorem claim_C8_witness :
    ((sampleStore.reorderLayers 1 0 sampleWt).reorderLayers 0 1 sampleWt).layers.map layerData
      = sampleStore.layers.map layerData :=
  claim_C8_reorder_roundtrip.1 sampleStore 1 0 sampleWt sampleWt (by decide) (by decide)
    (Or.inr rfl)

/-- C9: updateTrainingProgress appends one entry per history and overwrites
the three scalars with no clamping; resetTraining zeroes the aggregate with
totalEpochs taken from config.epochs; hence 60 ticks after a reset with
config.epochs = 50 leave histories of length 60. -/
theorem claim_C9_training :
    (∀ (s : NetworkStore) (e lo acc : ℚ),
        (s.updateTrainingProgress e lo acc).training =
          { s.training with
            currentEpoch := e
            loss := lo
            accuracy := acc
            lossHistory := s.training.lossHistory ++ [lo]
            accuracyHistory := s.training.accuracyHistory ++ [acc] }) ∧
    (∀ (s : NetworkStore),
        s.resetTraining.training =
          { isTraining := false, currentEpoch := 0, totalEpochs := s.config.epochs,
            loss := 0, accuracy := 0, lossHistory := [], accuracyHistory := [] }) ∧
    (∀ (s : NetworkStore) (calls : List (ℚ × ℚ × ℚ)),
        s.config.epochs = 50 → calls.length = 60 →
        ((calls.foldl applyProgress s.resetTraining).training.lossHistory.length = 60 ∧
         (calls.foldl applyProgress s.resetTraining).training.accuracyHistory.length = 60)) := by
  refine ⟨fun _ _ _ _ => rfl, fun _ => rfl, ?_⟩
  intro s calls _ hlen
  have h := foldl_progress_histories calls s.resetTraining
  have h1 : s.resetTraining.training.lossHistory.length = 0 := rfl
  have h2 : s.resetTraining.training.accuracyHistory.length = 0 := rfl
  constructor
  · rw [h.1, h1, hlen]
  · rw [h.2, h2, hlen]

/-- Witness for C9: 60 zero ticks on the epochs-50 store leave a loss
history of length 60. -/
theorem claim_C9_witness :
    ((List.replicate 60 ((0 : ℚ), (0 : ℚ), (0 : ℚ))).foldl applyProgress
        epochsFiftyStore.resetTraining).training.lossHistory.length = 60 :=
  (claim_C9_training.2.2 epochsFiftyStore (List.replicate 60 (0, 0, 0)) (by rfl) (by rfl)).1

/-- C10: the tour step starts at 0, startTour and endTour reset it to 0,
nextTourStep increments, previousTourStep clamps at 0, and so every
sequence of tour operations from the initial state keeps it non-negative. -/
theorem claim_C10_tourStep_nonneg :
    (∀ (ids : ℕ → String) (wt : ℕ → ℚ), (mkInitialState ids wt).ui.currentTourStep = 0) ∧
    (∀ s : NetworkStore, s.startTour.ui.currentTourStep = 0) ∧
    (∀ s : NetworkStore, s.nextTourStep.ui.currentTourStep = s.ui.currentTourStep + 1) ∧
    (∀ s : NetworkStore,
        s.previousTourStep.ui.currentTourStep = max 0 (s.ui.currentTourStep - 1)) ∧
    (∀ s : NetworkStore, s.endTour.ui.currentTourStep = 0) ∧
    (∀ (ids : ℕ → String) (wt : ℕ → ℚ) (ops : List TourOp),
        0 ≤ (ops.foldl applyTourOp (mkInitialState ids wt)).ui.currentTourStep) :=
  ⟨fun _ _ => rfl, fun _ => rfl, fun _ => rfl, fun _ => rfl, fun _ => rfl,
   fun ids wt ops => tour_invariant ops (mkInitialState ids wt) (le_refl 0)⟩
